import Mathlib

/-!
Shallow embedding of the `tesc` console-text-stylizer library
(files `src/tesc.hpp`, version 2.0.1, and `src/tesc.h`, version 0.1.0).

Color and style enum values are `uint8_t` in the source and are modelled
as `Nat` (all arithmetic stays below 256 except where an explicit
`% 256` marks a narrowing cast).  Stream output is modelled as the list
of chunks written by the successive `operator<<` calls, joined into a
`String`; the escape byte `ESC` (0x1B) is the Lean escape `\x1b`.
The process-wide static cells of `tesc.hpp` (`color::_fg_color`,
`color::_bg_color`, `font::_style`) form the explicit state `StateHpp`,
and each constructor becomes a state transformer.
-/

namespace Tesc

/-- `enum class face` of both files: `none = 0`, `black = 30 .. white = 37`. -/
def face_none : Nat := 0

def face_black : Nat := 30

def face_red : Nat := 31

def face_green : Nat := 32

def face_yellow : Nat := 33

def face_blue : Nat := 34

def face_magenta : Nat := 35

def face_cyan : Nat := 36

def face_white : Nat := 37

/-- `enum class back` of both files: `none = 0`, `black = 40 .. white = 47`. -/
def back_none : Nat := 0

def back_black : Nat := 40

def back_red : Nat := 41

def back_green : Nat := 42

def back_yellow : Nat := 43

def back_blue : Nat := 44

def back_magenta : Nat := 45

def back_cyan : Nat := 46

def back_white : Nat := 47

/-- `enum class style`: `normal = 0, bold = 1, italic = 2, underline = 4`. -/
def style_normal : Nat := 0

def style_bold : Nat := 1

def style_italic : Nat := 2

def style_underline : Nat := 4

/-- tesc.hpp `operator | (face, back)`: builds `std::make_pair(clr_1, clr_2)`. -/
def join_face_back (clr_1 clr_2 : Nat) : Nat × Nat := (clr_1, clr_2)

/-- tesc.hpp `operator | (back, face)`: returns `clr_2 | clr_1`. -/
def join_back_face (clr_1 clr_2 : Nat) : Nat × Nat := join_face_back clr_2 clr_1

/-- tesc.h `operator | (face, back)`: `(uint16_t)clr_1 << 8 | (uint8_t)clr_2`
(both operands come from `uint8_t` enums, hence the `% 256` casts). -/
def join_face_back_h (clr_1 clr_2 : Nat) : Nat :=
  ((clr_1 % 256) <<< 8) ||| (clr_2 % 256)

/-- tesc.h `operator | (back, face)`: returns `clr_2 | clr_1`. -/
def join_back_face_h (clr_1 clr_2 : Nat) : Nat := join_face_back_h clr_2 clr_1

/-- Both files, `operator | (style, style)`: bitwise OR of the `uint8_t` codes. -/
def join_style (f_1 f_2 : Nat) : Nat := (f_1 % 256) ||| (f_2 % 256)

/-- tesc.hpp `bright (face)` (lenient): if `(uint8_t)clr >= 90` return `clr`,
else `face{ 60 + (uint8_t)clr }`. -/
def bright_face_hpp (clr : Nat) : Nat :=
  if 90 ≤ clr then clr else (60 + clr) % 256

/-- tesc.hpp `bright (back)` (lenient): if `(uint8_t)clr >= 100` return `clr`,
else `back{ 60 + (uint8_t)clr }`. -/
def bright_back_hpp (clr : Nat) : Nat :=
  if 100 ≤ clr then clr else (60 + clr) % 256

/-- tesc.h `bright (face)` (strict): throws `invalid_argument` when
`(uint8_t)clr >= 90`, else returns `face{ 60 + (uint8_t)clr }`. -/
def bright_face_h (clr : Nat) : Except String Nat :=
  if 90 ≤ clr then Except.error "Foreground color is already brighten"
  else Except.ok ((60 + clr) % 256)

/-- tesc.h `bright (back)` (strict): throws `invalid_argument` when
`(uint8_t)clr >= 100`, else returns `back{ 60 + (uint8_t)clr }`. -/
def bright_back_h (clr : Nat) : Except String Nat :=
  if 100 ≤ clr then Except.error "Background color is already brighten"
  else Except.ok ((60 + clr) % 256)

/-- The chunks written by `operator << (ostream&, color const&)` (same body in
both files): prefix `"\033["`, then `clr_1` and (if also `clr_2`) `";"`
when `clr_1` is non-zero, then `clr_2` when non-zero, then `"m"`. -/
def color_chunks (clr_1 clr_2 : Nat) : List String :=
  ["\x1b["]
    ++ (if clr_1 ≠ 0 then [Nat.repr clr_1] ++ (if clr_2 ≠ 0 then [";"] else []) else [])
    ++ (if clr_2 ≠ 0 then [Nat.repr clr_2] else [])
    ++ ["m"]

/-- The full byte output of the color `operator<<` for stored codes. -/
def color_render (clr_1 clr_2 : Nat) : String :=
  String.join (color_chunks clr_1 clr_2)

/-- tesc.h packs the two codes into the `uint16_t` member `_color`;
its `operator<<` reads `clr_1 = _color >> 8` and `clr_2 = (uint8_t)_color`. -/
def color_render_h (packed : Nat) : String :=
  color_render ((packed % 65536) >>> 8) (packed % 256)

/-- tesc.hpp `font::test_style`: true when both the current style and the
queried option are zero, else whether the style contains all bits of the
option (`(st_1 & st_2) == st_2`). -/
def test_style (cur stl : Nat) : Bool :=
  if cur = 0 ∧ stl = 0 then true
  else decide ((cur &&& stl) = stl)

/-- tesc.h `font::_test`: the raw bitwise AND converted to `bool`
(`(uint8_t)_style & (uint8_t)st` is non-zero). -/
def test_h (cur stl : Nat) : Bool :=
  decide ((cur &&& stl) ≠ 0)

/-- The 3-element sorting network of the font `operator<<` (same in both
files): compare-swap `(0,1)`, then if `(1,2)` swaps, re-check `(0,1)`. -/
def sort3 (m0 m1 m2 : Nat) : Nat × Nat × Nat :=
  let p := if m0 > m1 then (m1, m0) else (m0, m1)
  let a := p.1
  let b := p.2
  if b > m2 then
    let q := (m2, b)
    let b2 := q.1
    let c2 := q.2
    if a > b2 then (b2, a, c2) else (a, b2, c2)
  else (a, b, m2)

/-- The `modif` array of tesc.hpp's font `operator<<`:
`{ test_style(bold) ? 1 : 22, test_style(italic) ? 3 : 23,
test_style(underline) ? 4 : 24 }`. -/
def font_modif (cur : Nat) : Nat × Nat × Nat :=
  (if test_style cur style_bold then 1 else 22,
   if test_style cur style_italic then 3 else 23,
   if test_style cur style_underline then 4 else 24)

/-- The `modif` array of tesc.h's font `operator<<`, which uses `_test`. -/
def font_modif_h (cur : Nat) : Nat × Nat × Nat :=
  (if test_h cur style_bold then 1 else 22,
   if test_h cur style_italic then 3 else 23,
   if test_h cur style_underline then 4 else 24)

/-- The sorted code triple emitted by tesc.hpp's font `operator<<`. -/
def font_codes (cur : Nat) : Nat × Nat × Nat :=
  sort3 (font_modif cur).1 (font_modif cur).2.1 (font_modif cur).2.2

/-- The sorted code triple emitted by tesc.h's font `operator<<`. -/
def font_codes_h (cur : Nat) : Nat × Nat × Nat :=
  sort3 (font_modif_h cur).1 (font_modif_h cur).2.1 (font_modif_h cur).2.2

/-- Byte output of tesc.hpp's font `operator<<`:
`"\033[" << modif[0] << ";" << modif[1] << ";" << modif[2] << "m"`. -/
def font_render (cur : Nat) : String :=
  "\x1b[" ++ Nat.repr (font_codes cur).1 ++ ";" ++ Nat.repr (font_codes cur).2.1
    ++ ";" ++ Nat.repr (font_codes cur).2.2 ++ "m"

/-- Byte output of tesc.h's font `operator<<`. -/
def font_render_h (cur : Nat) : String :=
  "\x1b[" ++ Nat.repr (font_codes_h cur).1 ++ ";" ++ Nat.repr (font_codes_h cur).2.1
    ++ ";" ++ Nat.repr (font_codes_h cur).2.2 ++ "m"

/-- The three process-wide static cells of tesc.hpp:
`color::_fg_color`, `color::_bg_color`, `font::_style`. -/
structure StateHpp where
  fg_color : Nat
  bg_color : Nat
  style : Nat
deriving DecidableEq

/-- Static initialization (tesc.hpp lines 323-325):
`face::none`, `back::none`, `style::normal`. -/
def init_state : StateHpp := { fg_color := 0, bg_color := 0, style := 0 }

/-- tesc.hpp `color::color(std::pair<face, back> const&)`: assigns both cells. -/
def color_ctor_pair (clr : Nat × Nat) (s : StateHpp) : StateHpp :=
  { s with fg_color := clr.1, bg_color := clr.2 }

/-- tesc.hpp `color::color(face)`: assigns only `_fg_color`. -/
def color_ctor_face (clr : Nat) (s : StateHpp) : StateHpp :=
  { s with fg_color := clr }

/-- tesc.hpp `color::color(back)`: assigns only `_bg_color`. -/
def color_ctor_back (clr : Nat) (s : StateHpp) : StateHpp :=
  { s with bg_color := clr }

/-- tesc.hpp `font::font(style)`: assigns `_style`. -/
def font_ctor_style (st : Nat) (s : StateHpp) : StateHpp :=
  { s with style := st }

/-- tesc.hpp `font::font() = default`: no member is static, nothing is
assigned, the state is untouched. -/
def font_ctor_default (s : StateHpp) : StateHpp := s

/-- tesc.hpp `color::get_face()`. -/
def get_face (s : StateHpp) : Nat := s.fg_color

/-- tesc.hpp `color::get_back()`. -/
def get_back (s : StateHpp) : Nat := s.bg_color

/-- tesc.hpp `font::get_style()`. -/
def get_style (s : StateHpp) : Nat := s.style

/-- `reset(std::ostream&)` (identical in both files): writes `"\033[0m"` and
reads or writes none of the static cells. -/
def reset_apply (s : StateHpp) : StateHpp × String := (s, "\x1b[0m")

/-- Writing a `color` manipulator in tesc.hpp: the emission is computed from
the current static cells via `get_face` / `get_back`. -/
def color_apply (s : StateHpp) : String := color_render (get_face s) (get_back s)

/-- Writing a `font` manipulator in tesc.hpp: the emission is computed from
the current static cell via `get_style`. -/
def font_apply (s : StateHpp) : String := font_render (get_style s)

theorem and_pow_cases (s i : Nat) : s &&& 2 ^ i = 0 ∨ s &&& 2 ^ i = 2 ^ i := by
  rw [Nat.and_two_pow]
  cases s.testBit i <;> simp

theorem and_one_cases (s : Nat) : s &&& 1 = 0 ∨ s &&& 1 = 1 := by
  simpa using and_pow_cases s 0

theorem and_two_cases (s : Nat) : s &&& 2 = 0 ∨ s &&& 2 = 2 := by
  simpa using and_pow_cases s 1

theorem and_four_cases (s : Nat) : s &&& 4 = 0 ∨ s &&& 4 = 4 := by
  simpa using and_pow_cases s 2

/-- Claim C1: the color manipulator's emission is the escape prefix, then the
foreground digits only when the foreground code is non-zero, then a `";"`
separator only when both codes are non-zero, then the background digits only
when the background code is non-zero, then `m`; in particular
`color(none, none)` gives the 3-byte `ESC[m`, `color(red, none)` gives
`ESC[31m`, `color(red, green)` gives `ESC[31;42m`, `color(none, green)` gives
`ESC[42m` (also through tesc.h's packed representation), and a zero-valued
code contributes no digits at all. -/
theorem color_emission_spec (f b : Nat) :
    color_chunks f b =
      ["\x1b["] ++ (if f ≠ 0 then [Nat.repr f] else [])
        ++ (if f ≠ 0 ∧ b ≠ 0 then [";"] else [])
        ++ (if b ≠ 0 then [Nat.repr b] else []) ++ ["m"]
      ∧ color_render face_none back_none = "\x1b[m"
      ∧ ("\x1b[m").length = 3
      ∧ color_render face_red back_none = "\x1b[31m"
      ∧ color_render face_red back_green = "\x1b[31;42m"
      ∧ color_render face_none back_green = "\x1b[42m"
      ∧ color_render_h (join_face_back_h face_red back_green) = "\x1b[31;42m" := by
  refine ⟨?_, by decide, by decide, by decide, by decide, by decide, by decide⟩
  by_cases hf : f = 0 <;> by_cases hb : b = 0 <;> simp [color_chunks, hf, hb]

/-- Claim C2: for every style value the font manipulator emits exactly three
semicolon-separated codes, one per attribute (bold: 1 if set else 22, italic:
3 if set else 23, underline: 4 if set else 24), always in strictly ascending
order; `font(normal)` emits `ESC[22;23;24m` and `font(bold|underline)` emits
`ESC[1;4;23m`; tesc.h's variant emits the same bytes. -/
theorem font_emission_sorted (s : Nat) :
    (font_codes s).1 < (font_codes s).2.1
      ∧ (font_codes s).2.1 < (font_codes s).2.2
      ∧ [(font_codes s).1, (font_codes s).2.1, (font_codes s).2.2].Perm
          [if s &&& 1 = 1 then 1 else 22,
           if s &&& 2 = 2 then 3 else 23,
           if s &&& 4 = 4 then 4 else 24]
      ∧ font_render s =
          "\x1b[" ++ Nat.repr (font_codes s).1 ++ ";" ++ Nat.repr (font_codes s).2.1
            ++ ";" ++ Nat.repr (font_codes s).2.2 ++ "m"
      ∧ font_render_h s = font_render s
      ∧ font_render style_normal = "\x1b[22;23;24m"
      ∧ font_render (join_style style_bold style_underline) = "\x1b[1;4;23m" := by
  have h1 := and_one_cases s
  have h2 := and_two_cases s
  have h4 := and_four_cases s
  refine ⟨?_, ?_, ?_, rfl, ?_, by decide, by decide⟩ <;>
    rcases h1 with h1 | h1 <;> rcases h2 with h2 | h2 <;> rcases h4 with h4 | h4 <;>
      simp [font_codes, font_codes_h, font_modif, font_modif_h, test_style, test_h,
        font_render, font_render_h, style_bold, style_italic, style_underline,
        sort3, h1, h2, h4] <;>
      decide

/-- Claim C3: brightening a standard color code adds 60 in both variants; an
already-bright code makes the strict variant (tesc.h) fail with
`invalid_argument` while the lenient variant (tesc.hpp) returns its input
unchanged, so lenient brightening is a fixed point there. -/
theorem bright_spec (c : Nat) (hc : c < 256) :
    (30 ≤ c ∧ c ≤ 37 →
        bright_face_hpp c = c + 60 ∧ bright_face_h c = Except.ok (c + 60)
          ∧ bright_face_hpp (bright_face_hpp c) = bright_face_hpp c)
      ∧ (40 ≤ c ∧ c ≤ 47 →
          bright_back_hpp c = c + 60 ∧ bright_back_h c = Except.ok (c + 60)
            ∧ bright_back_hpp (bright_back_hpp c) = bright_back_hpp c)
      ∧ (90 ≤ c →
          bright_face_h c = Except.error "Foreground color is already brighten"
            ∧ bright_face_hpp c = c
            ∧ bright_face_hpp (bright_face_hpp c) = bright_face_hpp c)
      ∧ (100 ≤ c →
          bright_back_h c = Except.error "Background color is already brighten"
            ∧ bright_back_hpp c = c
            ∧ bright_back_hpp (bright_back_hpp c) = bright_back_hpp c) := by
  unfold bright_face_hpp bright_back_hpp bright_face_h bright_back_h
  refine ⟨fun h => ?_, fun h => ?_, fun h => ?_, fun h => ?_⟩ <;>
    split_ifs <;> simp_all <;> omega

/-- Claim C3 witness: instantiates the bright specification at the standard
red foreground code 31. -/
theorem bright_spec_witness :
    31 < 256 ∧
      ((30 ≤ 31 ∧ 31 ≤ 37 →
          bright_face_hpp 31 = 31 + 60 ∧ bright_face_h 31 = Except.ok (31 + 60)
            ∧ bright_face_hpp (bright_face_hpp 31) = bright_face_hpp 31)
        ∧ (40 ≤ 31 ∧ 31 ≤ 47 →
            bright_back_hpp 31 = 31 + 60 ∧ bright_back_h 31 = Except.ok (31 + 60)
              ∧ bright_back_hpp (bright_back_hpp 31) = bright_back_hpp 31)
        ∧ (90 ≤ 31 →
            bright_face_h 31 = Except.error "Foreground color is already brighten"
              ∧ bright_face_hpp 31 = 31
              ∧ bright_face_hpp (bright_face_hpp 31) = bright_face_hpp 31)
        ∧ (100 ≤ 31 →
            bright_back_h 31 = Except.error "Background color is already brighten"
              ∧ bright_back_hpp 31 = 31
              ∧ bright_back_hpp (bright_back_hpp 31) = bright_back_hpp 31)) :=
  ⟨by decide, bright_spec 31 (by decide)⟩

/-- Claim C4 counterexample: at input `none` (code 0) the strict `bright`
(tesc.h) does not fail — `0 >= 90` is false, so it returns `face{ 60 }` —
and the lenient `bright` (tesc.hpp) returns code 60, not `none` unchanged. -/
theorem bright_none_cex :
    bright_face_h 0 = Except.ok 60 ∧ bright_face_hpp 0 = 60
      ∧ (bright_face_h 0 = Except.error "Foreground color is already brighten") = False
      ∧ (bright_face_hpp 0 = 0) = False :=
  ⟨rfl, rfl, eq_false (fun h => Except.noConfusion h), eq_false (by decide)⟩

/-- Claim C4 (amended): passing `none` (code 0) to `bright` succeeds in the
strict variant (tesc.h) and yields the out-of-range code 60, and the lenient
variant (tesc.hpp) likewise returns 60 rather than `none` unchanged. -/
theorem bright_none_amended :
    bright_face_h face_none = Except.ok 60 ∧ bright_face_hpp face_none = 60 :=
  ⟨rfl, rfl⟩

/-- Claim C5 counterexample: tesc.h's `_test` predicate with stored state
`normal` (0) and queried flag `normal` (0) computes `0 & 0`, which is zero,
hence the predicate is `false` — not `true` as the claim states. -/
theorem test_zero_cex :
    test_h style_normal style_normal = false
      ∧ (test_h style_normal style_normal = true) = False :=
  ⟨rfl, eq_false (by decide)⟩

/-- Claim C5 (amended): the both-zero flag-presence test reports `true` in
tesc.hpp's `test_style` (which special-cases two zero arguments) but `false`
in tesc.h's `_test` (a plain bitwise AND converted to `bool`). -/
theorem test_zero_amended :
    test_style style_normal style_normal = true
      ∧ test_h style_normal style_normal = false := by
  decide

/-- Claim C6: the reverse-order color joiner equals the forward-order joiner
with swapped arguments, in both tesc.hpp (pair form) and tesc.h (packed
`uint16_t` form); the forward joiner produces the ordered pair itself. -/
theorem join_commutes (f b : Nat) :
    join_back_face b f = join_face_back f b
      ∧ join_back_face_h b f = join_face_back_h f b
      ∧ join_face_back f b = (f, b) :=
  ⟨rfl, rfl, rfl⟩

/-- Claim C7: writing `reset` always emits exactly `ESC[0m`, independently of
the current state, and applying it twice yields two identical emissions. -/
theorem reset_emission (s : StateHpp) :
    (reset_apply s).2 = "\x1b[" ++ "0" ++ "m"
      ∧ (reset_apply ((reset_apply s).1)).2 = (reset_apply s).2 :=
  ⟨rfl, rfl⟩

/-- Claim C8: `reset` leaves all three process-wide cells (current foreground,
current background, current style flags) unchanged. -/
theorem reset_preserves_state (s : StateHpp) :
    (reset_apply s).1.fg_color = s.fg_color
      ∧ (reset_apply s).1.bg_color = s.bg_color
      ∧ (reset_apply s).1.style = s.style :=
  ⟨rfl, rfl, rfl⟩

/-- Claim C9: constructing `color` from a bare foreground sets only the
foreground cell, from a bare background only the background cell, and from a
pair both; the untouched cells (including the style cell) keep their values. -/
theorem color_ctor_state_effect (f b : Nat) (p : Nat × Nat) (s : StateHpp) :
    (color_ctor_face f s).fg_color = f
      ∧ (color_ctor_face f s).bg_color = s.bg_color
      ∧ (color_ctor_face f s).style = s.style
      ∧ (color_ctor_back b s).bg_color = b
      ∧ (color_ctor_back b s).fg_color = s.fg_color
      ∧ (color_ctor_back b s).style = s.style
      ∧ (color_ctor_pair p s).fg_color = p.1
      ∧ (color_ctor_pair p s).bg_color = p.2
      ∧ (color_ctor_pair p s).style = s.style :=
  ⟨rfl, rfl, rfl, rfl, rfl, rfl, rfl, rfl, rfl⟩

/-- Claim C10: a default-constructed `font` leaves the process-wide state
unchanged, so writing it emits the codes of whatever style was last stored
(`normal` in the initial state); for a stored `bold` the emission differs
from the all-cancel sequence. -/
theorem font_default_state_effect (s : StateHpp) :
    font_ctor_default s = s
      ∧ font_apply (font_ctor_default s) = font_render (get_style s)
      ∧ get_style init_state = style_normal
      ∧ font_render (get_style init_state) = "\x1b[22;23;24m"
      ∧ (font_render style_bold = "\x1b[22;23;24m") = False :=
  ⟨rfl, rfl, rfl, by decide, eq_false (by decide)⟩

end Tesc
